import Mathlib

/-!
# Verification of `create_example_excel.py`

A shallow embedding of the spreadsheet-builder script
`src/create_example_excel.py` and of the pieces of its environment that the
specified behaviour depends on:

* the openpyxl object model the script mutates (worksheet cells with value,
  font and fill attributes; column dimensions; the workbook-level
  defined-names dictionary whose item assignment checks that the key equals
  the name of the stored object and otherwise overwrites silently, as Python
  dict assignment does);
* `os.makedirs(path, exist_ok=True)` over an abstract filesystem state;
* `wb.save(path)` as a map update of the filesystem, serialising the whole
  in-memory workbook;
* the sheet-qualified cell-reference grammar with which a spreadsheet
  consumer (Excel, or openpyxl reading the file back) resolves the
  reference text (the attr_text field) of a defined name: an optionally
  quoted sheet name, the separator character, and one absolute-or-relative
  cell address or a colon separated pair of them.  Nothing else precedes
  the sheet name in that grammar, and a name without reference text
  resolves to nothing.

The script itself is straight-line code; it is embedded as a pure
construction of the workbook value followed by the three effectful steps
(directory creation, save, report printing) threaded through an explicit
process state, with failures short-circuiting as unhandled exceptions do.
-/

namespace XlsxDemo

/-! ## Association lists (Python dict / openpyxl collections, keyed lookup) -/

def assocGet {α β : Type} [DecidableEq α] : List (α × β) → α → Option β
  | [], _ => none
  | (k, v) :: rest, key => if k = key then some v else assocGet rest key

def assocSet {α β : Type} [DecidableEq α] : List (α × β) → α → β → List (α × β)
  | [], key, v => [(key, v)]
  | (k, w) :: rest, key, v =>
      if k = key then (key, v) :: rest else (k, w) :: assocSet rest key v

/-! ## The openpyxl object model used by the script -/

/-- Source: `Font(bold=True)` — the only font attribute the script sets. -/
structure Font where
  bold : Bool
deriving DecidableEq, Repr

/-- Source: `PatternFill(start_color=..., end_color=..., fill_type=...)`. -/
structure PatternFill where
  start_color : String
  end_color : String
  fill_type : String
deriving DecidableEq, Repr

/-- A worksheet cell: value, font and fill are unset until the script
assigns them. -/
structure Cell where
  value : Option String := none
  font : Option Font := none
  fill : Option PatternFill := none
deriving DecidableEq, Repr

/-- A worksheet: title, cells keyed by address string (as in
`sheet[addr]`), and the per-column width settings
(`sheet.column_dimensions[col].width`). -/
structure Worksheet where
  title : String
  cells : List (String × Cell) := []
  column_dimensions : List (String × Nat) := []
deriving DecidableEq, Repr

/-- Source line 36 import: the openpyxl DefinedName object.  Its
constructor parameters mirror the OOXML attribute order — name, comment,
customMenu, description, help, statusBar, localSheetId, hidden, function,
vbProcedure, xlm, functionGroupId, shortcutKey, publishToServer,
workbookParameter, attr_text — every one after name defaulting to None.
The reference text, attr_text, is the LAST parameter; the SECOND
positional parameter is comment.  Only the fields the program can reach
are modelled; the middle parameters are never passed and stay at their
None defaults. -/
structure DefinedName where
  name : String
  comment : Option String := none
  attr_text : Option String := none
deriving DecidableEq, Repr

/-- A workbook: its sheets (the active sheet is the head) and the
defined-names dictionary `wb.defined_names`. -/
structure Workbook where
  sheets : List Worksheet
  defined_names : List (String × DefinedName) := []
deriving DecidableEq, Repr

/-- `cell = sheet[addr]`: openpyxl materialises an empty cell on access. -/
def Worksheet.getCell (ws : Worksheet) (addr : String) : Cell :=
  (assocGet ws.cells addr).getD {}

/-- `sheet[addr] = v` (value assignment). -/
def Worksheet.setCellValue (ws : Worksheet) (addr : String) (v : String) : Worksheet :=
  { ws with cells := assocSet ws.cells addr { ws.getCell addr with value := some v } }

/-- `sheet[addr].font = f`. -/
def Worksheet.setCellFont (ws : Worksheet) (addr : String) (f : Font) : Worksheet :=
  { ws with cells := assocSet ws.cells addr { ws.getCell addr with font := some f } }

/-- `sheet[addr].fill = f`. -/
def Worksheet.setCellFill (ws : Worksheet) (addr : String) (f : PatternFill) : Worksheet :=
  { ws with cells := assocSet ws.cells addr { ws.getCell addr with fill := some f } }

/-- `sheet.column_dimensions[col].width = w`. -/
def Worksheet.setColWidth (ws : Worksheet) (col : String) (w : Nat) : Worksheet :=
  { ws with column_dimensions := assocSet ws.column_dimensions col w }

/-- `sheet.title = t`. -/
def Worksheet.setTitle (ws : Worksheet) (t : String) : Worksheet :=
  { ws with title := t }

/-- Apply an in-place mutation to the active sheet (`wb.active`, the head). -/
def Workbook.mapActive (wb : Workbook) (f : Worksheet → Worksheet) : Workbook :=
  match wb.sheets with
  | [] => wb
  | s :: rest => { wb with sheets := f s :: rest }

/-- `wb.defined_names[key] = dn`: openpyxl DefinedNameDict item assignment.
It raises ValueError when the key differs from the name of the object and
otherwise stores with plain dict semantics, silently replacing any entry
already present under the key. -/
def Workbook.setDefinedName (wb : Workbook) (key : String) (dn : DefinedName) :
    Except String Workbook :=
  if dn.name = key then
    Except.ok { wb with defined_names := assocSet wb.defined_names key dn }
  else
    Except.error "ValueError: Key must be the same as the name of the DefinedName"

/-- `Workbook()`: a fresh workbook with one sheet, titled Sheet by default. -/
def newWorkbook : Workbook :=
  { sheets := [{ title := "Sheet" }] }

/-! ## The script constants (verbatim from the source, lines 18-63) -/

/-- Line 39: the string passed as the second positional argument of the
DefinedName call for customerName, verbatim (note the stray dollar sign
before the quoted sheet title). -/
def customerNameArg : String := "$\x27Sheet1\x27!$A$2"

/-- Line 42: the second positional argument of the DefinedName call for
orderDate, verbatim. -/
def orderDateArg : String := "$\x27Sheet1\x27!$B$2"

/-- Line 45: the second positional argument of the DefinedName call for
items, verbatim. -/
def itemsArg : String := "$\x27Sheet1\x27!$A$5:$C$10"

/-- Lines 31-33: the light-gray solid fill applied to the table header. -/
def tableHeaderFill : PatternFill :=
  { start_color := "CCCCCC", end_color := "CCCCCC", fill_type := "solid" }

/-- Lines 13-33 and 47-50: the pure, infallible part of the construction —
sheet rename, cell values, fonts, fills and column widths, in source
order (the width assignments of lines 48-50 come after the defined-name
registrations in the source; they commute with them since they touch the
sheet, not the dictionary, and are placed here with the other sheet
mutations). -/
def sheetSteps (s : Worksheet) : Worksheet :=
  let s := s.setTitle "Sheet1"
  let s := s.setCellValue "A1" "Customer Name"
  let s := s.setCellValue "B1" "Date"
  let s := s.setCellFont "A1" { bold := true }
  let s := s.setCellFont "B1" { bold := true }
  let s := s.setCellValue "A2" "$\x7bcustomerName\x7d"
  let s := s.setCellValue "B2" "$\x7borderDate\x7d"
  let s := s.setCellValue "A4" "Item"
  let s := s.setCellValue "B4" "Qty"
  s.setCellValue "C4" "Price"

/-- Lines 31-33: the for loop over columns A, B, C styling row 4. -/
def styleTableHeader (ws : Worksheet) : Worksheet :=
  ["A", "B", "C"].foldl
    (fun s col => (s.setCellFont (col ++ "4") { bold := true }).setCellFill
      (col ++ "4") tableHeaderFill) ws

/-- Lines 48-50: the column width assignments. -/
def widthSteps (ws : Worksheet) : Worksheet :=
  ((ws.setColWidth "A" 15).setColWidth "B" 15).setColWidth "C" 12

/-- Lines 13-50: the full in-memory construction, including the three
defined-name registrations (lines 39, 42, 45), which are the only
construction steps that can raise.  Each registration passes the
reference string as the SECOND POSITIONAL constructor argument, which is
the comment parameter of DefinedName — so the string lands in comment
and attr_text, the reference text, keeps its None default. -/
def buildResult : Except String Workbook := do
  let wb := (newWorkbook.mapActive sheetSteps).mapActive styleTableHeader
  let wb ← wb.setDefinedName "customerName"
    { name := "customerName", comment := some customerNameArg }
  let wb ← wb.setDefinedName "orderDate"
    { name := "orderDate", comment := some orderDateArg }
  let wb ← wb.setDefinedName "items"
    { name := "items", comment := some itemsArg }
  pure (wb.mapActive widthSteps)

/-- The workbook the script has built when it reaches `wb.save`. -/
def wbFinal : Workbook := buildResult.toOption.getD newWorkbook

/-- The single sheet of the finished workbook. -/
def sheet1Final : Worksheet := wbFinal.sheets.headD { title := "" }

/-! ## Filesystem and process state

Paths are lists of path components.  `unwritable` models locations where a
write raises an OSError (permission denied, disk full, ...); it lets the
all-or-nothing claims quantify over failing environments. -/

structure FileSystem where
  dirs : List (List String)
  files : List (List String × Workbook) := []
  unwritable : List (List String) := []
deriving DecidableEq, Repr

/-- Every nonempty prefix of a path: the chain of directories
`os.makedirs` has to ensure, outermost first. -/
def ancestorDirs : List String → List (List String)
  | [] => []
  | x :: xs => [x] :: (ancestorDirs xs).map (fun p => x :: p)

/-- `os.makedirs(p, exist_ok=True)` (line 54): no-op without error when the
directory already exists, otherwise creates it together with every missing
parent, raising only on a filesystem error. -/
def makedirs (fs : FileSystem) (p : List String) : Except String FileSystem :=
  if p ∈ fs.dirs then Except.ok fs
  else if p ∈ fs.unwritable then Except.error "PermissionError"
  else Except.ok { fs with dirs := ancestorDirs p ++ fs.dirs }

/-- `wb.save(path)` (line 58): serialises the whole in-memory workbook to
the path, replacing whatever was there, raising on a filesystem error. -/
def saveWorkbook (fs : FileSystem) (p : List String) (wb : Workbook) :
    Except String FileSystem :=
  if p ∈ fs.unwritable then Except.error "OSError"
  else Except.ok { fs with files := assocSet fs.files p wb }

/-- Line 53: `output_dir = "config-repo/common-templates/templates"`. -/
def outputDir : List String := ["config-repo", "common-templates", "templates"]

/-- Line 57: `os.path.join(output_dir, "example.xlsx")`. -/
def outputPath : List String := outputDir ++ ["example.xlsx"]

/-- Process state: the filesystem plus the stdout lines printed so far. -/
structure PState where
  fs : FileSystem
  stdout : List String := []
deriving DecidableEq, Repr

/-- Lines 60-67: the report printed after the save, line by line (the
f-string escapes already rendered, as Python prints them). -/
def summaryLines : List String :=
  [ "✓ Created: config-repo/common-templates/templates/example.xlsx"
  , "  - Named range \x27customerName\x27 -> A2 (FreeMarker: $\x7bcustomerName\x7d)"
  , "  - Named range \x27orderDate\x27 -> B2 (FreeMarker: $\x7borderDate\x7d)"
  , "  - Named range \x27items\x27 -> A5:C10 (table area)"
  , ""
  , "Next: call the API endpoints:"
  , "  1. POST /api/documents/fill-excel"
  , "  2. POST /api/documents/verify-excel" ]

/-- Lines 60-67: the prints run only once `wb.save` has returned; a save
error surfaces as an unhandled exception, keeping the state reached so
far. -/
def afterSave (s : PState) (r : Except String FileSystem) :
    Except (PState × String) PState :=
  match r with
  | Except.error e => Except.error (s, e)
  | Except.ok fs2 => Except.ok { fs := fs2, stdout := s.stdout ++ summaryLines }

/-- Lines 56-67: the save and the report, run once `os.makedirs` has
returned; a makedirs error surfaces as an unhandled exception. -/
def afterMakedirs (s : PState) (wb : Workbook) (r : Except String FileSystem) :
    Except (PState × String) PState :=
  match r with
  | Except.error e => Except.error (s, e)
  | Except.ok fs1 => afterSave { s with fs := fs1 } (saveWorkbook fs1 outputPath wb)

/-- Lines 52-67: what runs after the in-memory construction — directory
creation, save, report, in source order. -/
def finishRun (s : PState) (wb : Workbook) : Except (PState × String) PState :=
  afterMakedirs s wb (makedirs s.fs outputDir)

/-- The whole script: module body lines 12-67.  No input is read — the run
is a function of the ambient filesystem state only. -/
def runScript (s : PState) : Except (PState × String) PState :=
  match buildResult with
  | Except.error e => Except.error (s, e)
  | Except.ok wb => finishRun s wb

/-! ## The sheet-qualified cell-reference grammar

How a consumer resolves a stored defined-name target: an optionally quoted
sheet name, the separator, then one cell address or a colon separated pair,
each column and row coordinate optionally anchored with a dollar sign.
This is the Excel defined-name reference grammar, which is also the grammar
openpyxl itself accepts when reading the file back (its sheet-range pattern
requires the string to begin with the quoted or plain sheet title followed
by the separator).  A dollar sign can anchor a column or row coordinate
only; nothing precedes the sheet name. -/

/-- The apostrophe character that quotes sheet titles. -/
def squote : Char := Char.ofNat 39

/-- A parsed cell address with its absolute-anchor flags. -/
structure CellAddr where
  colAbs : Bool
  col : String
  rowAbs : Bool
  row : Nat
deriving DecidableEq, Repr

/-- A parsed sheet-qualified rectangular reference (a single cell is the
degenerate rectangle whose two corners coincide). -/
structure SheetRange where
  sheet : String
  topLeft : CellAddr
  bottomRight : CellAddr
deriving DecidableEq, Repr

def isColChar (c : Char) : Bool := decide (65 ≤ c.toNat) && decide (c.toNat ≤ 90)

def natOfDigits (cs : List Char) : Nat :=
  cs.foldl (fun n c => 10 * n + (c.toNat - 48)) 0

/-- Parse one cell address, `$`-anchors optional, returning the rest. -/
def parseCellAddr (cs : List Char) : Option (CellAddr × List Char) :=
  let (colAbs, cs1) := match cs with
    | '$' :: rest => (true, rest)
    | _ => (false, cs)
  let (colCs, cs2) := cs1.span isColChar
  if colCs.isEmpty then none else
  let (rowAbs, cs3) := match cs2 with
    | '$' :: rest => (true, rest)
    | _ => (false, cs2)
  let (digCs, cs4) := cs3.span Char.isDigit
  if digCs.isEmpty then none
  else some (⟨colAbs, String.mk colCs, rowAbs, natOfDigits digCs⟩, cs4)

def isNameStart (c : Char) : Bool := c.isAlpha || c = '_'

def isNameChar (c : Char) : Bool := c.isAlphanum || c = '_'

/-- Parse the leading sheet qualifier (quoted or plain title, then the
separator), returning the title and the rest. -/
def parseSheetName (cs : List Char) : Option (String × List Char) :=
  match cs with
  | [] => none
  | c :: rest =>
    if c = squote then
      let (nameCs, rest1) := rest.span (fun d => !(d = squote))
      match rest1 with
      | q :: e :: rest2 =>
        if q = squote ∧ e = '!' ∧ !nameCs.isEmpty then
          some (String.mk nameCs, rest2)
        else none
      | _ => none
    else if isNameStart c then
      let (nameCs, rest1) := (c :: rest).span isNameChar
      match rest1 with
      | e :: rest2 => if e = '!' then some (String.mk nameCs, rest2) else none
      | [] => none
    else none

/-- Resolve a defined-name target string: the sheet qualifier, then one
cell address, optionally a colon and a second one, consuming the whole
string. -/
def parseDest (s : String) : Option SheetRange :=
  match parseSheetName s.data with
  | none => none
  | some (sh, rest) =>
    match parseCellAddr rest with
    | none => none
    | some (c1, rest1) =>
      match rest1 with
      | [] => some ⟨sh, c1, c1⟩
      | d :: rest2 =>
        if d = ':' then
          match parseCellAddr rest2 with
          | some (c2, rest3) => if rest3.isEmpty then some ⟨sh, c1, c2⟩ else none
          | none => none
        else none

/-- All four coordinates of a parsed rectangle carry absolute anchors. -/
def SheetRange.allAbsolute (r : SheetRange) : Bool :=
  r.topLeft.colAbs && r.topLeft.rowAbs && r.bottomRight.colAbs && r.bottomRight.rowAbs

/-- What a defined name resolves to for a consumer: its reference text is
its attr_text (that is the field openpyxl serialises as the element text
and reads back for destinations); a name with no reference text resolves
to no cells, otherwise the text is read under the sheet-qualified
reference grammar. -/
def DefinedName.resolve (d : DefinedName) : Option SheetRange :=
  match d.attr_text with
  | none => none
  | some s => parseDest s

/-! ## Concrete environments used to instantiate the theorems -/

/-- A bare filesystem: no directories, no files, everything writable. -/
def fsEmpty : FileSystem := { dirs := [] }

/-- A filesystem on which the output directory already exists. -/
def fsReady : FileSystem := { dirs := [outputDir] }

/-- The initial process state over the bare filesystem. -/
def pstate0 : PState := { fs := fsEmpty }

/-- The state a run from `pstate0` ends in (the run succeeds there). -/
def pstate0Run : PState :=
  match runScript pstate0 with
  | Except.ok s1 => s1
  | Except.error _ => pstate0

/-! ## Helper lemmas -/

theorem assocGet_assocSet_self {α β : Type} [DecidableEq α]
    (l : List (α × β)) (k : α) (v : β) :
    assocGet (assocSet l k v) k = some v := by
  induction l with
  | nil => simp [assocSet, assocGet]
  | cons hd tl ih =>
    obtain ⟨k1, v1⟩ := hd
    by_cases h : k1 = k
    · simp [assocSet, assocGet, h]
    · simp [assocSet, assocGet, h, ih]

/-- The in-memory construction succeeds and yields the final workbook. -/
theorem buildResult_eq_ok : buildResult = Except.ok wbFinal := rfl

theorem runScript_eq_finish (s : PState) : runScript s = finishRun s wbFinal := by
  unfold runScript
  rw [buildResult_eq_ok]

theorem saveWorkbook_ok_inv (fs fs1 : FileSystem) (p : List String) (wb : Workbook)
    (h : saveWorkbook fs p wb = Except.ok fs1) :
    p ∉ fs.unwritable ∧ fs1 = { fs with files := assocSet fs.files p wb } := by
  unfold saveWorkbook at h
  by_cases hw : p ∈ fs.unwritable
  · rw [if_pos hw] at h
    exact Except.noConfusion h
  · rw [if_neg hw] at h
    injection h with h
    exact ⟨hw, h.symm⟩

theorem makedirs_ok_dirs (fs fs1 : FileSystem) (p : List String)
    (h : makedirs fs p = Except.ok fs1) (hmem : p ∈ ancestorDirs p) :
    p ∈ fs1.dirs ∧ fs1.files = fs.files ∧ fs1.unwritable = fs.unwritable := by
  unfold makedirs at h
  by_cases hp : p ∈ fs.dirs
  · rw [if_pos hp] at h
    injection h with h
    subst h
    exact ⟨hp, rfl, rfl⟩
  · rw [if_neg hp] at h
    by_cases hu : p ∈ fs.unwritable
    · rw [if_pos hu] at h
      exact Except.noConfusion h
    · rw [if_neg hu] at h
      injection h with h
      subst h
      exact ⟨List.mem_append_left _ hmem, rfl, rfl⟩

/-- Inversion of a successful tail of the run: the output directory exists
afterwards, the output path is writable, the file now holds the serialised
workbook, and exactly the summary lines were appended to stdout. -/
theorem finishRun_ok_inv (s s1 : PState) (wb : Workbook)
    (h : finishRun s wb = Except.ok s1) :
    outputDir ∈ s1.fs.dirs ∧ outputPath ∉ s1.fs.unwritable ∧
    assocGet s1.fs.files outputPath = some wb ∧
    s1.stdout = s.stdout ++ summaryLines := by
  unfold finishRun at h
  cases h1 : makedirs s.fs outputDir with
  | error e =>
    rw [h1] at h
    simp only [afterMakedirs] at h
    exact Except.noConfusion h
  | ok fs1 =>
    rw [h1] at h
    simp only [afterMakedirs] at h
    cases h2 : saveWorkbook fs1 outputPath wb with
    | error e =>
      rw [h2] at h
      simp only [afterSave] at h
      exact Except.noConfusion h
    | ok fs2 =>
      rw [h2] at h
      simp only [afterSave] at h
      injection h with h
      subst h
      obtain ⟨hw, hfs2⟩ := saveWorkbook_ok_inv fs1 fs2 outputPath wb h2
      obtain ⟨hdm, -, -⟩ := makedirs_ok_dirs s.fs fs1 outputDir h1 (by decide)
      subst hfs2
      exact ⟨hdm, hw, assocGet_assocSet_self .., rfl⟩

/-- On a state where the output directory exists and the output path is
writable, the tail of the run succeeds and its effect is exactly: write
the serialised workbook, append the summary lines. -/
theorem finishRun_ok_of (s : PState) (wb : Workbook)
    (hd : outputDir ∈ s.fs.dirs) (hw : outputPath ∉ s.fs.unwritable) :
    finishRun s wb = Except.ok
      { fs := { s.fs with files := assocSet s.fs.files outputPath wb },
        stdout := s.stdout ++ summaryLines } := by
  have h1 : makedirs s.fs outputDir = Except.ok s.fs := by
    unfold makedirs
    rw [if_pos hd]
  have h2 : saveWorkbook s.fs outputPath wb =
      Except.ok { s.fs with files := assocSet s.fs.files outputPath wb } := by
    unfold saveWorkbook
    rw [if_neg hw]
  unfold finishRun
  rw [h1]
  simp only [afterMakedirs, h2, afterSave]

/-! ## The claims -/

/-- Claim C1 (code bug): the three names are registered, but each call
passed its reference string as the second positional constructor
argument, which is the comment parameter — so each registered name holds
that string in comment and has NO reference text at all
(attr_text = none), and therefore resolves to no cell, while the claim
(and the script, by its own comments and printed report) intends
Sheet1 A2, B2 and A5:C10.  Moreover the strings themselves are malformed
as references: each carries a stray dollar sign before the quoted sheet
title, outside the sheet-qualified reference grammar, and only with that
first character dropped do they parse — to exactly the intended cells,
with absolute anchors on every coordinate. -/
theorem c1_targets_registered_but_unresolvable :
    assocGet wbFinal.defined_names "customerName" =
      some { name := "customerName", comment := some customerNameArg,
             attr_text := none } ∧
    assocGet wbFinal.defined_names "orderDate" =
      some { name := "orderDate", comment := some orderDateArg,
             attr_text := none } ∧
    assocGet wbFinal.defined_names "items" =
      some { name := "items", comment := some itemsArg, attr_text := none } ∧
    (assocGet wbFinal.defined_names "customerName").bind DefinedName.resolve =
      none ∧
    (assocGet wbFinal.defined_names "orderDate").bind DefinedName.resolve =
      none ∧
    (assocGet wbFinal.defined_names "items").bind DefinedName.resolve = none ∧
    parseDest customerNameArg = none ∧
    parseDest orderDateArg = none ∧
    parseDest itemsArg = none ∧
    parseDest (String.mk (customerNameArg.data.drop 1)) =
      some ⟨"Sheet1", ⟨true, "A", true, 2⟩, ⟨true, "A", true, 2⟩⟩ ∧
    parseDest (String.mk (orderDateArg.data.drop 1)) =
      some ⟨"Sheet1", ⟨true, "B", true, 2⟩, ⟨true, "B", true, 2⟩⟩ ∧
    parseDest (String.mk (itemsArg.data.drop 1)) =
      some ⟨"Sheet1", ⟨true, "A", true, 5⟩, ⟨true, "C", true, 10⟩⟩ := by
  decide

/-- Claim C2: the seven populated cells of Sheet1 hold exactly the claimed
literal strings. -/
theorem c2_cell_values :
    (sheet1Final.getCell "A1").value = some "Customer Name" ∧
    (sheet1Final.getCell "B1").value = some "Date" ∧
    (sheet1Final.getCell "A2").value = some "$\x7bcustomerName\x7d" ∧
    (sheet1Final.getCell "B2").value = some "$\x7borderDate\x7d" ∧
    (sheet1Final.getCell "A4").value = some "Item" ∧
    (sheet1Final.getCell "B4").value = some "Qty" ∧
    (sheet1Final.getCell "C4").value = some "Price" := by
  decide

/-- Claim C3: A1 and B1 get a bold font; A4, B4 and C4 each get a bold
font and the solid light-gray (CCCCCC) pattern fill. -/
theorem c3_header_styling :
    (sheet1Final.getCell "A1").font = some { bold := true } ∧
    (sheet1Final.getCell "B1").font = some { bold := true } ∧
    (sheet1Final.getCell "A4").font = some { bold := true } ∧
    (sheet1Final.getCell "B4").font = some { bold := true } ∧
    (sheet1Final.getCell "C4").font = some { bold := true } ∧
    (sheet1Final.getCell "A4").fill = some tableHeaderFill ∧
    (sheet1Final.getCell "B4").fill = some tableHeaderFill ∧
    (sheet1Final.getCell "C4").fill = some tableHeaderFill ∧
    tableHeaderFill.fill_type = "solid" ∧
    tableHeaderFill.start_color = "CCCCCC" := by
  decide

/-- Claim C4: registering under a name that is already registered on the
document succeeds (no duplicate-name error) and the later registration
overwrites the former: after storing v1 and then v2 under the same name,
the lookup yields v2. -/
theorem c4_last_write_wins (wb : Workbook) (n : String) (v1 v2 : DefinedName)
    (h1 : v1.name = n) (h2 : v2.name = n) :
    ∃ wb1 wb2,
      wb.setDefinedName n v1 = Except.ok wb1 ∧
      assocGet wb1.defined_names n = some v1 ∧
      wb1.setDefinedName n v2 = Except.ok wb2 ∧
      assocGet wb2.defined_names n = some v2 := by
  refine ⟨{ wb with defined_names := assocSet wb.defined_names n v1 },
    { wb with defined_names :=
        assocSet (assocSet wb.defined_names n v1) n v2 }, ?_, ?_, ?_, ?_⟩
  · unfold Workbook.setDefinedName
    rw [if_pos h1]
  · exact assocGet_assocSet_self ..
  · unfold Workbook.setDefinedName
    rw [if_pos h2]
  · exact assocGet_assocSet_self ..

/-- Witness for C4: overwriting the name n on a fresh workbook. -/
theorem c4_last_write_wins_witness :
    ∃ wb1 wb2,
      newWorkbook.setDefinedName "n" { name := "n", attr_text := some "t1" } =
        Except.ok wb1 ∧
      assocGet wb1.defined_names "n" =
        some { name := "n", attr_text := some "t1" } ∧
      wb1.setDefinedName "n" { name := "n", attr_text := some "t2" } =
        Except.ok wb2 ∧
      assocGet wb2.defined_names "n" =
        some { name := "n", attr_text := some "t2" } :=
  c4_last_write_wins newWorkbook "n" { name := "n", attr_text := some "t1" }
    { name := "n", attr_text := some "t2" } rfl rfl

/-- Claim C5: on every filesystem state, the run either fully completes —
the file holds the built workbook and exactly the summary lines were
appended to stdout — or terminates with an error having printed nothing. -/
theorem c5_all_or_nothing (s : PState) :
    (∃ s1, runScript s = Except.ok s1 ∧
      s1.stdout = s.stdout ++ summaryLines ∧
      assocGet s1.fs.files outputPath = some wbFinal) ∨
    (∃ s1 e, runScript s = Except.error (s1, e) ∧ s1.stdout = s.stdout) := by
  rw [runScript_eq_finish]
  unfold finishRun
  cases h1 : makedirs s.fs outputDir with
  | error e =>
    right
    exact ⟨s, e, by simp [afterMakedirs], rfl⟩
  | ok fs1 =>
    cases h2 : saveWorkbook fs1 outputPath wbFinal with
    | error e =>
      right
      refine ⟨{ s with fs := fs1 }, e, ?_, rfl⟩
      simp [afterMakedirs, h2, afterSave]
    | ok fs2 =>
      left
      obtain ⟨hw, hfs2⟩ := saveWorkbook_ok_inv fs1 fs2 outputPath wbFinal h2
      refine ⟨{ fs := fs2, stdout := s.stdout ++ summaryLines }, ?_, rfl, ?_⟩
      · simp [afterMakedirs, h2, afterSave]
      · rw [hfs2]
        exact assocGet_assocSet_self ..

/-- Claim C6: on any filesystem, creating the output directory is a no-op
without error when it already exists, and when it is absent (and the
location writable) it gets created together with its missing parents,
touching no files. -/
theorem c6_makedirs_behavior (fs : FileSystem) :
    (outputDir ∈ fs.dirs → makedirs fs outputDir = Except.ok fs) ∧
    (outputDir ∉ fs.dirs → outputDir ∉ fs.unwritable →
      ∃ fs1, makedirs fs outputDir = Except.ok fs1 ∧
        ["config-repo"] ∈ fs1.dirs ∧
        ["config-repo", "common-templates"] ∈ fs1.dirs ∧
        outputDir ∈ fs1.dirs ∧
        fs1.files = fs.files) := by
  constructor
  · intro h
    unfold makedirs
    rw [if_pos h]
  · intro h1 h2
    refine ⟨{ fs with dirs := ancestorDirs outputDir ++ fs.dirs }, ?_, ?_, ?_, ?_, rfl⟩
    · unfold makedirs
      rw [if_neg h1, if_neg h2]
    · exact List.mem_append_left _ (by decide)
    · exact List.mem_append_left _ (by decide)
    · exact List.mem_append_left _ (by decide)

/-- Witness for C6: both branches at concrete filesystems — the directory
already present (fsReady), and the bare filesystem (fsEmpty). -/
theorem c6_makedirs_behavior_witness :
    makedirs fsReady outputDir = Except.ok fsReady ∧
    (∃ fs1, makedirs fsEmpty outputDir = Except.ok fs1 ∧
      ["config-repo"] ∈ fs1.dirs ∧
      ["config-repo", "common-templates"] ∈ fs1.dirs ∧
      outputDir ∈ fs1.dirs ∧
      fs1.files = fsEmpty.files) :=
  ⟨(c6_makedirs_behavior fsReady).1 (by decide),
   (c6_makedirs_behavior fsEmpty).2 (by decide) (by decide)⟩

/-- Claim C7: the width settings of columns A, B, C of Sheet1 are 15, 15
and 12. -/
theorem c7_column_widths :
    assocGet sheet1Final.column_dimensions "A" = some 15 ∧
    assocGet sheet1Final.column_dimensions "B" = some 15 ∧
    assocGet sheet1Final.column_dimensions "C" = some 12 := by
  decide

/-- Claim C8: the construction takes no input — every successful run
writes the one fixed workbook — and running again from the state a
successful run ends in succeeds and writes the identical workbook (same
cells, styles and named ranges) to the same path. -/
theorem c8_deterministic_rerun (s s1 : PState) (h : runScript s = Except.ok s1) :
    assocGet s1.fs.files outputPath = some wbFinal ∧
    ∃ s2, runScript s1 = Except.ok s2 ∧
      assocGet s2.fs.files outputPath = some wbFinal := by
  rw [runScript_eq_finish] at h
  obtain ⟨hd, hw, hfile, -⟩ := finishRun_ok_inv s s1 wbFinal h
  refine ⟨hfile, ?_⟩
  rw [runScript_eq_finish]
  exact ⟨{ fs := { s1.fs with files := assocSet s1.fs.files outputPath wbFinal },
           stdout := s1.stdout ++ summaryLines },
    finishRun_ok_of s1 wbFinal hd hw, assocGet_assocSet_self ..⟩

/-- Witness for C8: the concrete double run from the bare filesystem. -/
theorem c8_deterministic_rerun_witness :
    runScript pstate0 = Except.ok pstate0Run ∧
    (assocGet pstate0Run.fs.files outputPath = some wbFinal ∧
     ∃ s2, runScript pstate0Run = Except.ok s2 ∧
       assocGet s2.fs.files outputPath = some wbFinal) :=
  ⟨rfl, c8_deterministic_rerun pstate0 pstate0Run rfl⟩

/-- Claim C9: after any successful run the output file is present at the
fixed path and holds the built workbook (whatever was there before is
replaced), and that workbook has exactly one sheet, titled Sheet1. -/
theorem c9_output_file_and_single_sheet (s s1 : PState)
    (h : runScript s = Except.ok s1) :
    assocGet s1.fs.files outputPath = some wbFinal ∧
    wbFinal.sheets.map Worksheet.title = ["Sheet1"] := by
  rw [runScript_eq_finish] at h
  obtain ⟨-, -, hfile, -⟩ := finishRun_ok_inv s s1 wbFinal h
  exact ⟨hfile, by decide⟩

/-- Witness for C9: the concrete run from the bare filesystem. -/
theorem c9_output_file_and_single_sheet_witness :
    runScript pstate0 = Except.ok pstate0Run ∧
    (assocGet pstate0Run.fs.files outputPath = some wbFinal ∧
     wbFinal.sheets.map Worksheet.title = ["Sheet1"]) :=
  ⟨rfl, c9_output_file_and_single_sheet pstate0 pstate0Run rfl⟩

/-- Claim C10: the builder touches exactly the seven cells A1, B1, A2, B2,
A4, B4, C4 (in particular every cell of rows 5 to 10 is unset), the
placeholder cells A2 and B2 carry neither font nor fill, and the only
non-value styling sits on A1, B1 (font, no fill) and A4, B4, C4. -/
theorem c10_frame :
    sheet1Final.cells.map Prod.fst = ["A1", "B1", "A2", "B2", "A4", "B4", "C4"] ∧
    (sheet1Final.getCell "A2").font = none ∧
    (sheet1Final.getCell "A2").fill = none ∧
    (sheet1Final.getCell "B2").font = none ∧
    (sheet1Final.getCell "B2").fill = none ∧
    (sheet1Final.getCell "A1").fill = none ∧
    (sheet1Final.getCell "B1").fill = none ∧
    (["A5", "B5", "C5", "A6", "B6", "C6", "A7", "B7", "C7", "A8", "B8", "C8",
      "A9", "B9", "C9", "A10", "B10", "C10"].all
      (fun addr => (assocGet sheet1Final.cells addr).isNone)) = true := by
  decide

end XlsxDemo
